import Mathlib

/-!
Verification of the parametric CAD builder in `cad/needle_bearing_holder.py`.

The Python script constructs solids by chained boolean operations
(`+=` union, `-=` difference, `&` intersection) over positioned primitives
(boxes, cylinders, cones).  We embed each builder as a constructive-solid-
geometry (CSG) syntax tree over exact rationals (the idealised value of each
Python float literal), give the trees a point-membership semantics over the
reals, and model the export driver (`__main__` block) as an event trace.
-/

namespace NeedleHolder

/-- Alignment of a primitive along one axis, as in build123d `Align`:
`min` anchors the shape's minimum face at the origin (it spans `[0, size]`),
`center` centres it (`[-size/2, size/2]`), `max` anchors the maximum face
(`[-size, 0]`). -/
inductive Align where
  | min
  | center
  | max
deriving DecidableEq, Repr

/-- Per-axis alignment triple, as passed to build123d primitives. -/
structure Align3 where
  x : Align
  y : Align
  z : Align
deriving DecidableEq, Repr

/-- `bde.align.ANCHOR_BOTTOM`: centred in X/Y, minimum face at the origin in Z. -/
def ANCHOR_BOTTOM : Align3 := ⟨.center, .center, .min⟩

/-- `bde.align.ANCHOR_TOP`: centred in X/Y, maximum face at the origin in Z
(the shape grows downward from the given Z coordinate). -/
def ANCHOR_TOP : Align3 := ⟨.center, .center, .max⟩

/-- Default build123d alignment: centred on all three axes. -/
def ALIGN_CENTER : Align3 := ⟨.center, .center, .center⟩

/-- CSG syntax tree for the solids built by the script.  Dimensions are exact
rationals.  `cylinder` has its axis along Z; `cylinderX` / `cylinderY` are the
`rotation=bde.rotation.POS_X` / `POS_Y` forms (axis along X resp. Y, centred);
`cylinderRotY` is a Z-axis cylinder rotated about the Y axis by the given angle
in degrees (`.rotate(axis=bd.Axis.Y, angle=...)`), centred.  `move` is
`bd.Pos(X=dx, Y=dy, Z=dz) * shape`. -/
inductive Shape where
  | empty
  | box (sx sy sz : ℚ) (align : Align3)
  | cylinder (r h : ℚ) (align : Align3)
  | cylinderX (r h : ℚ)
  | cylinderY (r h : ℚ)
  | cone (rTop rBot h : ℚ) (align : Align3)
  | cylinderRotY (r h angleDeg : ℚ)
  | move (dx dy dz : ℚ) (s : Shape)
  | union (a b : Shape)
  | diff (a b : Shape)
  | inter (a b : Shape)
deriving DecidableEq, Repr

/-- The `Spec` dataclass: every annotated field, with its default.
`gap_between_bearings` is deliberately absent: in the source it has no type
annotation, so it is a class attribute, not a dataclass field. -/
structure Spec where
  bearing_od : ℚ := 16
  bearing_id : ℚ := 8.0 - 0.1
  bearing_thickness : ℚ := 5.0
  general_wall_thickness : ℚ := 3.0
  needle_shaft_length : ℚ := 16.0
  needle_shaft_od : ℚ := 2.0 + 0.25
  needle_shaft_flats_width : ℚ := 1.5 + 0.2
  mount_stepper_width : ℚ := 42.0
  mount_stepper_interface_depth : ℚ := 20
  mount_stepper_top_to_bottom_bearing_bottom : ℚ := 94.0
  dist_stepper_to_needle_axis : ℚ := 32.0
  raiser_width_x : ℚ := 15.0
  raiser_width_y : ℚ := 10.0
  spool_width : ℚ := 14.0
  spool_diameter : ℚ := 72.0
deriving DecidableEq, Repr

/-- `gap_between_bearings = 2.0`: a class attribute shared by every instance,
read through the instance but never settable through the constructor. -/
def Spec.gap_between_bearings (_ : Spec) : ℚ := 2.0

/-- Property `bearing_holder_z_height`: height of the bearing holder. -/
def Spec.bearing_holder_z_height (s : Spec) : ℚ :=
  s.bearing_thickness * 2 + s.gap_between_bearings

/-- Property `diameter_at_spool_holder`: mating diameter at the rotating rod
riser and the spool holder. -/
def Spec.diameter_at_spool_holder (s : Spec) : ℚ :=
  s.bearing_id - 0.7

/-- `stepper_grip(spec)` translated operation by operation from the source. -/
def stepper_grip (spec : Spec) : Shape :=
  let p := Shape.empty
  -- Add the stepper motor mount.
  let p := p.union (.move 0 spec.dist_stepper_to_needle_axis
      spec.mount_stepper_top_to_bottom_bearing_bottom
    (.box (spec.mount_stepper_width + 2 * spec.general_wall_thickness)
      (spec.mount_stepper_interface_depth + spec.general_wall_thickness)
      (spec.mount_stepper_width + spec.general_wall_thickness)
      ⟨.center, .min, .max⟩))
  -- Add extension out to the bearing holder.
  let p := p.union (.move 0 (spec.bearing_od / 2)
      spec.mount_stepper_top_to_bottom_bearing_bottom
    (.box (spec.mount_stepper_width / 2)
      spec.dist_stepper_to_needle_axis
      (spec.mount_stepper_width + spec.general_wall_thickness)
      ⟨.center, .min, .max⟩))
  -- Remove the literal stepper motor.
  let p := p.diff (.move 0
      (spec.dist_stepper_to_needle_axis + spec.general_wall_thickness)
      (spec.mount_stepper_top_to_bottom_bearing_bottom
        - spec.general_wall_thickness)
    (.box spec.mount_stepper_width
      spec.mount_stepper_interface_depth
      spec.mount_stepper_width
      ⟨.center, .min, .max⟩))
  -- Remove the raiser rod.
  let p := p.diff (.move 0 (spec.bearing_od / 2) 0
    (.box (spec.raiser_width_x + 0.1) (spec.raiser_width_y + 0.1)
      (spec.mount_stepper_top_to_bottom_bearing_bottom * 2)
      ⟨.center, .min, .min⟩))
  -- Remove bolts.
  let p := [(-8 : ℚ), -21, -34].foldl (fun q z =>
    q.diff (.move 0 (spec.bearing_od / 2 + spec.raiser_width_y / 2)
        (spec.mount_stepper_top_to_bottom_bearing_bottom + z)
      (.cylinderX (3.2 / 2) (spec.mount_stepper_width * 2)))) p
  p

/-- `bearing_holder(spec)` translated operation by operation from the source. -/
def bearing_holder (spec : Spec) : Shape :=
  let p := Shape.empty
  -- Draw the bearing holder (bottom).
  let p := p.union (.cylinder
    (spec.bearing_od / 2 + spec.general_wall_thickness)
    (spec.bearing_thickness * 2 + spec.gap_between_bearings)
    ANCHOR_BOTTOM)
  -- Remove each of the bearings (bottom).
  let p := [(0 : ℚ), spec.bearing_thickness + spec.gap_between_bearings].foldl
    (fun q bottom_z =>
      q.diff (.move 0 0 bottom_z
        (.cylinder (spec.bearing_od / 2) spec.bearing_thickness
          ANCHOR_BOTTOM))) p
  -- Draw the bearing holder (top).
  let p := p.union (.move 0 0 spec.mount_stepper_top_to_bottom_bearing_bottom
    ((Shape.cylinder
        (spec.bearing_od / 2 + spec.general_wall_thickness)
        spec.bearing_thickness
        ANCHOR_TOP).diff
      (.cylinder (spec.bearing_od / 2) spec.bearing_thickness ANCHOR_TOP)))
  -- Draw the raiser rod.
  let p := p.union (.move 0 (spec.bearing_od / 2 + spec.raiser_width_y) 0
    (.box spec.raiser_width_x spec.raiser_width_y
      spec.mount_stepper_top_to_bottom_bearing_bottom
      ⟨.center, .max, .min⟩))
  -- Remove hole though the middle.
  let p := p.diff (.cylinder ((spec.bearing_od - 4) / 2)
    (spec.bearing_thickness * 2 + spec.gap_between_bearings)
    ANCHOR_BOTTOM)
  -- Make it easier to pop the bearings out.
  let p := p.diff (.move 0 (-spec.bearing_od / 2 - 1)
      (spec.bearing_holder_z_height / 2)
    (.box 5 (spec.bearing_od / 2) (spec.gap_between_bearings + 3)
      ALIGN_CENTER))
  -- Remove bolts.
  let p := [(-8 : ℚ), -21, -34].foldl (fun q z =>
    q.diff (.move 0 (spec.bearing_od / 2 + spec.raiser_width_y / 2)
        (spec.mount_stepper_top_to_bottom_bearing_bottom + z)
      (.cylinderX (3.2 / 2) (spec.mount_stepper_width * 2)))) p
  p

/-- `bearing_adapter(spec)` translated operation by operation from the source. -/
def bearing_adapter (spec : Spec) : Shape :=
  let p := Shape.empty
  let p := p.union (.cylinder (spec.bearing_id / 2)
    spec.bearing_holder_z_height ANCHOR_BOTTOM)
  -- Add flange.
  let p := p.union (.move 0 0 spec.bearing_holder_z_height
    (.cone (8 / 2) (spec.bearing_id / 2 + 2) spec.general_wall_thickness
      ANCHOR_BOTTOM))
  -- Add part all the way to the top.
  let p := p.union (.move 0 0 0
    (.cylinder (spec.diameter_at_spool_holder / 2)
      (spec.mount_stepper_top_to_bottom_bearing_bottom + 12)
      ANCHOR_BOTTOM))
  -- Remove the needle shaft (round, with flats).
  let p := p.diff ((Shape.cylinder (spec.needle_shaft_od / 2)
      spec.bearing_holder_z_height ANCHOR_BOTTOM).inter
    (.box spec.needle_shaft_flats_width 10 spec.bearing_holder_z_height
      ANCHOR_BOTTOM))
  -- Remove passage for the thread/wire (bottom).
  let p := p.diff (.move 0 0 (spec.bearing_holder_z_height + 2)
    (.cylinderRotY (3.2 / 2) (spec.bearing_holder_z_height * 5) 40))
  -- Remove passage for the thread/wire (top, on +X side).
  let p := p.diff (.move (spec.bearing_id / 2) 0
      spec.mount_stepper_top_to_bottom_bearing_bottom
    (.box 3 3 25 ⟨.max, .center, .center⟩))
  -- Remove M3 hole in the top.
  let p := p.diff (.move 0 0
      (spec.mount_stepper_top_to_bottom_bearing_bottom + 7)
    (.cylinderY (2.8 / 2) 40))
  p

/-- `spool_holder(spec)` translated operation by operation from the source. -/
def spool_holder (spec : Spec) : Shape :=
  let p := Shape.empty
  let base_t : ℚ := 10
  let p := p.union (.box
    (spec.spool_width + 2 * spec.general_wall_thickness)
    10
    (base_t + spec.spool_diameter / 2 + 10)
    ANCHOR_BOTTOM)
  let p := p.diff (.cylinder (spec.diameter_at_spool_holder / 2 + 0.25) 10
    ANCHOR_BOTTOM)
  -- Remove screw hole.
  let p := p.diff (.move 0 0 (10 / 2) (.cylinderX (3.2 / 2) 100))
  -- Remove the spool.
  let p := p.diff (.move 0 0 base_t
    (.box spec.spool_width 100 1000 ANCHOR_BOTTOM))
  -- Remove the screw through the spool.
  let p := p.diff (.move 0 0 (base_t + spec.spool_diameter / 2)
    (.cylinderX (3.2 / 2) 1000))
  p

/-- `assembly(spec)` translated operation by operation from the source:
it calls the four leaf builders itself and unions their results at fixed
offsets. -/
def assembly (spec : Spec) : Shape :=
  let p := Shape.empty
  -- Add the bearing holder.
  let p := p.union (bearing_holder spec)
  -- Add the stepper motor mount.
  let p := p.union (stepper_grip spec)
  let p := p.union (.move 25 0 0 (bearing_adapter spec))
  let p := p.union (.move 50 0 spec.mount_stepper_top_to_bottom_bearing_bottom
    (spool_holder spec))
  p

/-- The default-constructed `Spec()`. -/
def dSpec : Spec := {}

/-- The subtracted operands along the top-level `-=` chain of a builder,
in source order (right operands of `diff` on the left spine). -/
def topSubs : Shape → List Shape
  | .diff a b => topSubs a ++ [b]
  | .union a _ => topSubs a
  | _ => []

/-- The unioned operands along the top-level `+=` chain of a builder,
in source order (right operands of `union` on the left spine). -/
def topAdds : Shape → List Shape
  | .union a b => topAdds a ++ [b]
  | .diff a _ => topAdds a
  | _ => []

/-- Is this subtracted shape a positioned X-axis bolt cylinder
(`rotation=bde.rotation.POS_X`)? -/
def isPosXCylinderCut : Shape → Bool
  | .move _ _ _ (.cylinderX _ _) => true
  | _ => false

/-- The bolt-hole cuts of a builder: its top-level subtractions that are
positioned X-axis cylinders. -/
def boltCuts (sh : Shape) : List Shape :=
  (topSubs sh).filter isPosXCylinderCut

/-- Interval membership for one axis of an aligned primitive of the given
size: `min` spans `[0, size]`, `center` spans `[-size/2, size/2]`, `max`
spans `[-size, 0]`. -/
def intervalMem (a : Align) (size : ℚ) (c : ℝ) : Prop :=
  match a with
  | .min => 0 ≤ c ∧ c ≤ (size : ℝ)
  | .center => -((size : ℝ) / 2) ≤ c ∧ c ≤ (size : ℝ) / 2
  | .max => -(size : ℝ) ≤ c ∧ c ≤ 0

/-- Offset of a radial primitive's axis from the local origin induced by one
axis of the alignment (build123d aligns the primitive's bounding box, whose
half-extent across the axis is the radius). -/
def axOff (a : Align) (r : ℚ) : ℚ :=
  match a with
  | .min => r
  | .center => 0
  | .max => -r

/-- Lower end of the Z-interval of a primitive of height `h` under a Z
alignment. -/
def zLo (a : Align) (h : ℚ) : ℚ :=
  match a with
  | .min => 0
  | .center => -(h / 2)
  | .max => -h

/-- Point-membership semantics of a CSG tree, over `ℝ × ℝ × ℝ` (x, y, z).
Rotated cylinders use the exact rotation about the Y axis by the stored angle
in degrees. -/
def mem : Shape → ℝ × ℝ × ℝ → Prop
  | .empty, _ => False
  | .box sx sy sz al, p =>
      intervalMem al.x sx p.1 ∧ intervalMem al.y sy p.2.1 ∧
      intervalMem al.z sz p.2.2
  | .cylinder r h al, p =>
      (p.1 - (axOff al.x r : ℝ)) ^ 2 + (p.2.1 - (axOff al.y r : ℝ)) ^ 2 ≤
        (r : ℝ) ^ 2 ∧
      intervalMem al.z h p.2.2
  | .cylinderX r h, p =>
      p.2.1 ^ 2 + p.2.2 ^ 2 ≤ (r : ℝ) ^ 2 ∧
      -((h : ℝ) / 2) ≤ p.1 ∧ p.1 ≤ (h : ℝ) / 2
  | .cylinderY r h, p =>
      p.1 ^ 2 + p.2.2 ^ 2 ≤ (r : ℝ) ^ 2 ∧
      -((h : ℝ) / 2) ≤ p.2.1 ∧ p.2.1 ≤ (h : ℝ) / 2
  | .cone rTop rBot h al, p =>
      intervalMem al.z h p.2.2 ∧
      p.1 ^ 2 + p.2.1 ^ 2 ≤
        ((rBot : ℝ) +
          (p.2.2 - (zLo al.z h : ℝ)) / (h : ℝ) * ((rTop : ℝ) - (rBot : ℝ))) ^ 2
  | .cylinderRotY r h ang, p =>
      (Real.cos ((ang : ℝ) * Real.pi / 180) * p.1 -
          Real.sin ((ang : ℝ) * Real.pi / 180) * p.2.2) ^ 2 + p.2.1 ^ 2 ≤
        (r : ℝ) ^ 2 ∧
      -((h : ℝ) / 2) ≤ Real.sin ((ang : ℝ) * Real.pi / 180) * p.1 +
          Real.cos ((ang : ℝ) * Real.pi / 180) * p.2.2 ∧
      Real.sin ((ang : ℝ) * Real.pi / 180) * p.1 +
          Real.cos ((ang : ℝ) * Real.pi / 180) * p.2.2 ≤ (h : ℝ) / 2
  | .move dx dy dz s, p =>
      mem s (p.1 - (dx : ℝ), p.2.1 - (dy : ℝ), p.2.2 - (dz : ℝ))
  | .union a b, p => mem a p ∨ mem b p
  | .diff a b, p => mem a p ∧ ¬ mem b p
  | .inter a b, p => mem a p ∧ mem b p

/-- Does the Z-interval of a primitive of height `h` under a Z alignment lie
within `[lo, hi]`? -/
def zIntv (a : Align) (h lo hi : ℚ) : Prop :=
  match a with
  | .min => lo ≤ 0 ∧ h ≤ hi
  | .center => lo ≤ -(h / 2) ∧ h / 2 ≤ hi
  | .max => lo ≤ -h ∧ 0 ≤ hi

/-- Conservative certificate that every point of the shape has its Z
coordinate within `[lo, hi]` (subtractions only shrink, so they are ignored;
rotated cylinders are never certified). -/
def zWithin : ℚ → ℚ → Shape → Prop
  | _, _, .empty => True
  | lo, hi, .box _ _ sz al => zIntv al.z sz lo hi
  | lo, hi, .cylinder _ h al => zIntv al.z h lo hi
  | lo, hi, .cylinderX r _ => 0 ≤ r ∧ lo ≤ -r ∧ r ≤ hi
  | lo, hi, .cylinderY r _ => 0 ≤ r ∧ lo ≤ -r ∧ r ≤ hi
  | lo, hi, .cone _ _ h al => zIntv al.z h lo hi
  | _, _, .cylinderRotY _ _ _ => False
  | lo, hi, .move _ _ dz s => zWithin (lo - dz) (hi - dz) s
  | lo, hi, .union a b => zWithin lo hi a ∧ zWithin lo hi b
  | lo, hi, .diff a _ => zWithin lo hi a
  | lo, hi, .inter a b => zWithin lo hi a ∨ zWithin lo hi b

/-- Soundness of `zIntv` against `intervalMem`. -/
theorem zIntv_sound {a : Align} {sz lo hi : ℚ} (hz : zIntv a sz lo hi)
    {c : ℝ} (hc : intervalMem a sz c) : (lo : ℝ) ≤ c ∧ c ≤ (hi : ℝ) := by
  cases a <;>
    simp only [zIntv, intervalMem] at hz hc <;>
    obtain ⟨h1, h2⟩ := hz <;>
    obtain ⟨c1, c2⟩ := hc <;>
    have h1' := (Rat.cast_le (K := ℝ)).mpr h1 <;>
    have h2' := (Rat.cast_le (K := ℝ)).mpr h2 <;>
    push_cast at h1' h2' <;>
    exact ⟨by linarith, by linarith⟩

/-- Soundness of the `zWithin` certificate: if it holds, every point of the
shape has its Z coordinate within the casted interval. -/
theorem zWithin_sound : ∀ (sh : Shape) (lo hi : ℚ), zWithin lo hi sh →
    ∀ p : ℝ × ℝ × ℝ, mem sh p → (lo : ℝ) ≤ p.2.2 ∧ p.2.2 ≤ (hi : ℝ) := by
  intro sh
  induction sh with
  | empty => intro lo hi _ p hp; exact absurd hp (by simp [mem])
  | box sx sy sz al =>
      intro lo hi hz p hp
      exact zIntv_sound hz hp.2.2
  | cylinder r h al =>
      intro lo hi hz p hp
      exact zIntv_sound hz hp.2
  | cylinderX r h =>
      intro lo hi hz p hp
      obtain ⟨hr0, hlo, hhi⟩ := hz
      obtain ⟨hsq, -, -⟩ := hp
      have hr0' : (0 : ℝ) ≤ (r : ℝ) := by exact_mod_cast hr0
      have hlo' : (lo : ℝ) ≤ -(r : ℝ) := by exact_mod_cast hlo
      have hhi' : (r : ℝ) ≤ (hi : ℝ) := by exact_mod_cast hhi
      have hz2 : p.2.2 ^ 2 ≤ (r : ℝ) ^ 2 := by nlinarith [sq_nonneg p.2.1]
      constructor
      · nlinarith [sq_nonneg (p.2.2 + (r : ℝ))]
      · nlinarith [sq_nonneg (p.2.2 - (r : ℝ))]
  | cylinderY r h =>
      intro lo hi hz p hp
      obtain ⟨hr0, hlo, hhi⟩ := hz
      obtain ⟨hsq, -, -⟩ := hp
      have hr0' : (0 : ℝ) ≤ (r : ℝ) := by exact_mod_cast hr0
      have hlo' : (lo : ℝ) ≤ -(r : ℝ) := by exact_mod_cast hlo
      have hhi' : (r : ℝ) ≤ (hi : ℝ) := by exact_mod_cast hhi
      have hz2 : p.2.2 ^ 2 ≤ (r : ℝ) ^ 2 := by nlinarith [sq_nonneg p.1]
      constructor
      · nlinarith [sq_nonneg (p.2.2 + (r : ℝ))]
      · nlinarith [sq_nonneg (p.2.2 - (r : ℝ))]
  | cone rTop rBot h al =>
      intro lo hi hz p hp
      exact zIntv_sound hz hp.1
  | cylinderRotY r h ang =>
      intro lo hi hz p hp
      exact absurd hz (by simp [zWithin])
  | move dx dy dz s ih =>
      intro lo hi hz p hp
      have := ih (lo - dz) (hi - dz) hz
        (p.1 - (dx : ℝ), p.2.1 - (dy : ℝ), p.2.2 - (dz : ℝ)) hp
      obtain ⟨h1, h2⟩ := this
      push_cast at h1 h2
      exact ⟨by linarith, by linarith⟩
  | union a b iha ihb =>
      intro lo hi hz p hp
      obtain ⟨hza, hzb⟩ := hz
      rcases hp with hp | hp
      · exact iha lo hi hza p hp
      · exact ihb lo hi hzb p hp
  | diff a b iha ihb =>
      intro lo hi hz p hp
      exact iha lo hi hz p hp.1
  | inter a b iha ihb =>
      intro lo hi hz p hp
      rcases hz with hz | hz
      · exact iha lo hi hz p hp.1
      · exact ihb lo hi hz p hp.2

/-- Outer radius of an added subtree, when it is (a positioned or hollowed)
cylinder. -/
def outerCylinderRadius : Shape → Option ℚ
  | .cylinder r _ _ => some r
  | .move _ _ _ s => outerCylinderRadius s
  | .diff a _ => outerCylinderRadius a
  | _ => none

/-- The outer radii of the cylindrical sections added along a builder's
top-level `+=` chain. -/
def addedCylinderRadii (sh : Shape) : List ℚ :=
  (topAdds sh).filterMap outerCylinderRadius

/-- The Z extent (bounding box in Z) of a shape is exactly `[lo, hi]`: every
point lies within, and both ends are attained. -/
def zExtent (sh : Shape) (lo hi : ℚ) : Prop :=
  (∀ p : ℝ × ℝ × ℝ, mem sh p → (lo : ℝ) ≤ p.2.2 ∧ p.2.2 ≤ (hi : ℝ)) ∧
  (∃ p : ℝ × ℝ × ℝ, mem sh p ∧ p.2.2 = (lo : ℝ)) ∧
  (∃ p : ℝ × ℝ × ℝ, mem sh p ∧ p.2.2 = (hi : ℝ))

/-- C2: for every `Spec`, the derived property `bearing_holder_z_height`
equals `2 * bearing_thickness + gap_between_bearings`, recomputed from the
base fields (this is proved for all field values, in particular all positive
ones). -/
theorem bearing_holder_z_height_formula (s : Spec) :
    s.bearing_holder_z_height = 2 * s.bearing_thickness + s.gap_between_bearings := by
  unfold Spec.bearing_holder_z_height
  ring

/-- Witness for C2 at the default `Spec`. -/
theorem bearing_holder_z_height_formula_witness :
    dSpec.bearing_holder_z_height = 2 * dSpec.bearing_thickness + dSpec.gap_between_bearings :=
  bearing_holder_z_height_formula dSpec

/-- C3: for every `Spec`, the derived property `diameter_at_spool_holder`
equals `bearing_id` minus the fixed literal clearance constant `0.7`. -/
theorem diameter_at_spool_holder_formula (s : Spec) :
    s.diameter_at_spool_holder = s.bearing_id - 0.7 :=
  rfl

/-- Witness for C3 at the default `Spec`. -/
theorem diameter_at_spool_holder_formula_witness :
    dSpec.diameter_at_spool_holder = dSpec.bearing_id - 0.7 :=
  diameter_at_spool_holder_formula dSpec

/-- C1: for every `Spec`, `stepper_grip` and `bearing_holder` subtract exactly
the same three bolt cylinders: positioned X-axis cylinders of radius `3.2/2`
at `Y = bearing_od/2 + raiser_width_y/2` and at Z-offsets `-8, -21, -34`
relative to `mount_stepper_top_to_bottom_bearing_bottom`, so the two offset
sets coincide. -/
theorem bolt_cut_sets_match (s : Spec) :
    boltCuts (stepper_grip s) = boltCuts (bearing_holder s) ∧
    boltCuts (stepper_grip s) =
      [(-8 : ℚ), -21, -34].map (fun z =>
        .move 0 (s.bearing_od / 2 + s.raiser_width_y / 2)
          (s.mount_stepper_top_to_bottom_bearing_bottom + z)
          (.cylinderX (3.2 / 2) (s.mount_stepper_width * 2))) :=
  ⟨rfl, rfl⟩

/-- Witness for C1 at the default `Spec` (the claim theorem has no `Prop`
hypothesis; this instantiates it anyway at a concrete input). -/
theorem bolt_cut_sets_match_witness :
    boltCuts (stepper_grip dSpec) = boltCuts (bearing_holder dSpec) :=
  (bolt_cut_sets_match dSpec).1

/-- C4: for a `Spec` with `spool_width = 14` and `spool_diameter = 72` (the
defaults), the first subtraction in `spool_holder` is the bore cylinder of
radius `diameter_at_spool_holder / 2 + 0.25`, so the cut-through bore
diameter is `diameter_at_spool_holder + 0.5`. -/
theorem spool_holder_bore_diameter (s : Spec)
    (hw : s.spool_width = 14) (hd : s.spool_diameter = 72) :
    (topSubs (spool_holder s)).head? =
      some (.cylinder (s.diameter_at_spool_holder / 2 + 0.25) 10 ANCHOR_BOTTOM) ∧
    2 * (s.diameter_at_spool_holder / 2 + 0.25) = s.diameter_at_spool_holder + 0.5 := by
  refine ⟨rfl, by ring⟩

/-- Witness for C4: the default `Spec` has `spool_width = 14` and
`spool_diameter = 72`, and the bore-diameter relation holds there. -/
theorem spool_holder_bore_diameter_witness :
    2 * (dSpec.diameter_at_spool_holder / 2 + 0.25) =
      dSpec.diameter_at_spool_holder + 0.5 :=
  (spool_holder_bore_diameter dSpec (by norm_num [dSpec]) (by norm_num [dSpec])).2

/-- C10: every builder output is independent of `needle_shaft_length`: any two
`Spec`s differing only in that field produce identical solids from each of the
five builders. -/
theorem builders_independent_of_needle_shaft_length (s : Spec) (x : ℚ) :
    stepper_grip { s with needle_shaft_length := x } = stepper_grip s ∧
    bearing_holder { s with needle_shaft_length := x } = bearing_holder s ∧
    bearing_adapter { s with needle_shaft_length := x } = bearing_adapter s ∧
    spool_holder { s with needle_shaft_length := x } = spool_holder s ∧
    assembly { s with needle_shaft_length := x } = assembly s :=
  ⟨rfl, rfl, rfl, rfl, rfl⟩

/-- For the default `Spec`, every point of `bearing_holder` has its Z
coordinate in `[0, 94]`. -/
theorem bearing_holder_zWithin : zWithin 0 94 (bearing_holder dSpec) := by
  norm_num [zWithin, zIntv, bearing_holder, dSpec, ANCHOR_BOTTOM, ANCHOR_TOP,
    ALIGN_CENTER, Spec.bearing_holder_z_height, Spec.gap_between_bearings]

/-- The point `(10, 0, 94)` lies in the default `bearing_holder` (on the top
face of the top cap). -/
theorem bearing_holder_top_point :
    mem (bearing_holder dSpec) (10, 0, 94) := by
  norm_num [mem, intervalMem, axOff, bearing_holder, dSpec, ANCHOR_BOTTOM,
    ANCHOR_TOP, ALIGN_CENTER, Spec.bearing_holder_z_height,
    Spec.gap_between_bearings]

/-- The point `(10, 0, 0)` lies in the default `bearing_holder` (on the bottom
face of the bottom holder wall). -/
theorem bearing_holder_bottom_point :
    mem (bearing_holder dSpec) (10, 0, 0) := by
  norm_num [mem, intervalMem, axOff, bearing_holder, dSpec, ANCHOR_BOTTOM,
    ANCHOR_TOP, ALIGN_CENTER, Spec.bearing_holder_z_height,
    Spec.gap_between_bearings]

/-- C5 counterexample: for the default `Spec`, the bounding-box height of the
`bearing_holder` solid is not `mount_stepper_top_to_bottom_bearing_bottom +
bearing_thickness` (= 99): its Z extent is exactly `[0, 94]`, because the top
cap is anchored with its top face at Z = 94 and grows downward. -/
theorem bearing_holder_height_not_mount_plus_thickness :
    ¬ ∃ lo hi : ℚ, zExtent (bearing_holder dSpec) lo hi ∧
      hi - lo = dSpec.mount_stepper_top_to_bottom_bearing_bottom +
        dSpec.bearing_thickness := by
  rintro ⟨lo, hi, ⟨hbound, ⟨p0, hp0, hz0⟩, ⟨p1, hp1, hz1⟩⟩, hsum⟩
  have hb0 := zWithin_sound _ 0 94 bearing_holder_zWithin p0 hp0
  have hb1 := zWithin_sound _ 0 94 bearing_holder_zWithin p1 hp1
  have h0 := hbound (10, 0, 0) bearing_holder_bottom_point
  have h1 := hbound (10, 0, 94) bearing_holder_top_point
  norm_num at hb0 hb1
  have hA : (lo : ℝ) ≤ 0 := h0.1
  have hB : (94 : ℝ) ≤ (hi : ℝ) := h1.2
  have hC : (0 : ℝ) ≤ (lo : ℝ) := hz0 ▸ hb0.1
  have hD : (hi : ℝ) ≤ 94 := hz1 ▸ hb1.2
  have hhi : hi = 94 := by exact_mod_cast le_antisymm hD hB
  have hlo : lo = 0 := by exact_mod_cast le_antisymm hA hC
  rw [hhi, hlo] at hsum
  norm_num [dSpec] at hsum

/-- C5 amended: for the default `Spec`, the bounding-box height of
`bearing_holder` equals `mount_stepper_top_to_bottom_bearing_bottom` alone
(Z extent exactly `[0, 94]`; the top cap, anchored at its top, adds no
height), and the two cylindrical wall sections the builder adds (bottom
holder and top cap) both have outer radius
`bearing_od / 2 + general_wall_thickness`; the raiser rod, a box, extends
farther from the axis, so the whole part's footprint is not a circle of that
radius. -/
theorem bearing_holder_extent_and_radii :
    zExtent (bearing_holder dSpec) 0
      dSpec.mount_stepper_top_to_bottom_bearing_bottom ∧
    addedCylinderRadii (bearing_holder dSpec) =
      [dSpec.bearing_od / 2 + dSpec.general_wall_thickness,
       dSpec.bearing_od / 2 + dSpec.general_wall_thickness] := by
  have hm : ((dSpec.mount_stepper_top_to_bottom_bearing_bottom : ℚ) : ℝ) = 94 := by
    norm_num [dSpec]
  refine ⟨⟨?_, ⟨(10, 0, 0), bearing_holder_bottom_point, by norm_num⟩,
    ⟨(10, 0, 94), bearing_holder_top_point, by rw [hm]⟩⟩, rfl⟩
  intro p hp
  have hb := zWithin_sound _ 0 94 bearing_holder_zWithin p hp
  rw [hm]
  norm_num at hb ⊢
  exact hb

/-- The part builders each named builder invokes directly, read off the
source: `assembly` itself calls the four leaf builders; the leaf builders
call no other builder. -/
def directCalls : String → List String
  | "assembly" =>
      ["bearing_holder", "stepper_grip", "bearing_adapter", "spool_holder"]
  | _ => []

/-- The builders the `__main__` driver invokes directly, in source order,
while constructing its `parts` dictionary. -/
def driverDirectCalls : List String :=
  ["assembly", "bearing_holder", "stepper_grip", "bearing_adapter",
   "spool_holder"]

/-- Every builder invocation in one driver run: each direct driver call
followed by the calls that builder's body makes. -/
def driverBuilderTrace : List String :=
  driverDirectCalls.flatMap (fun c => c :: directCalls c)

/-- The accepted solid representations in the driver's type assertion
(`bd.Part | bd.Solid | bd.Compound`), plus a fourth possibility standing for
any other value a builder might have returned. -/
inductive PType where
  | part
  | solid
  | compound
  | other
deriving DecidableEq, Repr

/-- Is the value one of the accepted solid representations? -/
def acceptedType : PType → Bool
  | .part => true
  | .solid => true
  | .compound => true
  | .other => false

/-- A named part as the driver sees it: its label, the runtime type of the
value the builder returned, and whether the solid is manifold. -/
structure BuiltPart where
  pname : String
  ptype : PType
  manifold : Bool
deriving DecidableEq, Repr

/-- Observable driver actions: directory creation (with `exist_ok`), the
non-manifold warning, and a file write. -/
inductive Event where
  | mkdirExistOk (dir : String)
  | warnNonManifold (pname : String)
  | writeFile (path : String)
deriving DecidableEq, Repr

/-- Export one named part: abort (the failed `assert`) when the value is not
an accepted solid representation; otherwise warn when non-manifold, then
write the STL and the STEP file. -/
def exportPart (dir : String) (p : BuiltPart) : Except String (List Event) :=
  if acceptedType p.ptype then
    .ok ((if p.manifold then [] else [Event.warnNonManifold p.pname]) ++
      [Event.writeFile (dir ++ "/" ++ p.pname ++ ".stl"),
       Event.writeFile (dir ++ "/" ++ p.pname ++ ".step")])
  else
    .error (p.pname ++ " is not an expected type")

/-- The driver's export loop over the built parts, in order; the first failed
type assertion aborts the run. -/
def driverLoop (dir : String) : List BuiltPart → Except String (List Event)
  | [] => .ok []
  | p :: ps =>
    match exportPart dir p with
    | .error e => .error e
    | .ok evs =>
      match driverLoop dir ps with
      | .error e => .error e
      | .ok rest => .ok (evs ++ rest)

/-- One driver run over the built parts: create the output directory `build`
(exist-ok) first, then export every part. -/
def runDriver (ps : List BuiltPart) : Except String (List Event) :=
  (driverLoop "build" ps).map (fun evs => Event.mkdirExistOk "build" :: evs)

/-- Did the run abort? -/
def runAborts : Except String (List Event) → Bool
  | .error _ => true
  | .ok _ => false

/-- The file paths written in a list of driver events. -/
def writesOf (evs : List Event) : List String :=
  evs.filterMap fun e =>
    match e with
    | .writeFile path => some path
    | _ => none

/-- The five part labels of the driver's `parts` dictionary, in source
order. -/
def partLabels : List String :=
  ["assembly", "bearing_holder", "stepper_grip", "bearing_adapter",
   "spool_holder"]

/-- The parts built by one run of the driver: the five named builders, each
returning a `bd.Part`, with unspecified manifoldness per part. -/
def builtParts (mf : String → Bool) : List BuiltPart :=
  partLabels.map fun n => ⟨n, .part, mf n⟩

/-- The names of the generated `__init__` parameters of the `Spec` dataclass:
exactly the annotated fields, in declaration order. `gap_between_bearings`
has no annotation, so it is not among them. -/
def specCtorFields : List String :=
  ["bearing_od", "bearing_id", "bearing_thickness", "general_wall_thickness",
   "needle_shaft_length", "needle_shaft_od", "needle_shaft_flats_width",
   "mount_stepper_width", "mount_stepper_interface_depth",
   "mount_stepper_top_to_bottom_bearing_bottom",
   "dist_stepper_to_needle_axis", "raiser_width_x", "raiser_width_y",
   "spool_width", "spool_diameter"]

/-- Apply one keyword argument to the record under construction; an
unexpected keyword is Python's `TypeError` (`none`). -/
def setField (s : Spec) (kv : String × ℚ) : Option Spec :=
  match kv.1 with
  | "bearing_od" => some { s with bearing_od := kv.2 }
  | "bearing_id" => some { s with bearing_id := kv.2 }
  | "bearing_thickness" => some { s with bearing_thickness := kv.2 }
  | "general_wall_thickness" =>
      some { s with general_wall_thickness := kv.2 }
  | "needle_shaft_length" => some { s with needle_shaft_length := kv.2 }
  | "needle_shaft_od" => some { s with needle_shaft_od := kv.2 }
  | "needle_shaft_flats_width" =>
      some { s with needle_shaft_flats_width := kv.2 }
  | "mount_stepper_width" => some { s with mount_stepper_width := kv.2 }
  | "mount_stepper_interface_depth" =>
      some { s with mount_stepper_interface_depth := kv.2 }
  | "mount_stepper_top_to_bottom_bearing_bottom" =>
      some { s with mount_stepper_top_to_bottom_bearing_bottom := kv.2 }
  | "dist_stepper_to_needle_axis" =>
      some { s with dist_stepper_to_needle_axis := kv.2 }
  | "raiser_width_x" => some { s with raiser_width_x := kv.2 }
  | "raiser_width_y" => some { s with raiser_width_y := kv.2 }
  | "spool_width" => some { s with spool_width := kv.2 }
  | "spool_diameter" => some { s with spool_diameter := kv.2 }
  | _ => none

/-- The `Spec(...)` constructor with keyword arguments: start from the
defaults and apply each keyword; an unexpected keyword raises. -/
def mkSpec (kwargs : List (String × ℚ)) : Option Spec :=
  kwargs.foldlM setField {}

/-- Read a `Spec` dimension by its field name. -/
def getField (s : Spec) : String → Option ℚ
  | "bearing_od" => some s.bearing_od
  | "bearing_id" => some s.bearing_id
  | "bearing_thickness" => some s.bearing_thickness
  | "general_wall_thickness" => some s.general_wall_thickness
  | "needle_shaft_length" => some s.needle_shaft_length
  | "needle_shaft_od" => some s.needle_shaft_od
  | "needle_shaft_flats_width" => some s.needle_shaft_flats_width
  | "mount_stepper_width" => some s.mount_stepper_width
  | "mount_stepper_interface_depth" => some s.mount_stepper_interface_depth
  | "mount_stepper_top_to_bottom_bearing_bottom" =>
      some s.mount_stepper_top_to_bottom_bearing_bottom
  | "dist_stepper_to_needle_axis" => some s.dist_stepper_to_needle_axis
  | "raiser_width_x" => some s.raiser_width_x
  | "raiser_width_y" => some s.raiser_width_y
  | "spool_width" => some s.spool_width
  | "spool_diameter" => some s.spool_diameter
  | _ => none

/-- C6 counterexample: in one driver run each leaf builder is invoked twice,
not once — once inside `assembly(Spec())` and once directly for its own
dictionary entry. -/
theorem leaf_builders_invoked_twice_not_once :
    driverBuilderTrace.count "bearing_holder" = 2 ∧
    driverBuilderTrace.count "stepper_grip" = 2 ∧
    driverBuilderTrace.count "bearing_adapter" = 2 ∧
    driverBuilderTrace.count "spool_holder" = 2 ∧
    (2 : ℕ) ≠ 1 := by
  refine ⟨rfl, rfl, rfl, rfl, by norm_num⟩

/-- C6 amended: the driver rebuilds the leaf parts — each leaf builder is
invoked exactly twice per run (once by the `assembly` builder, once directly
by the driver) — and, the builders being pure, the assembly solid equals the
union of the leaf builders' solids at the fixed relative offsets. -/
theorem driver_rebuilds_leaves_and_assembly_is_union :
    (driverBuilderTrace.count "bearing_holder" = 2 ∧
     driverBuilderTrace.count "stepper_grip" = 2 ∧
     driverBuilderTrace.count "bearing_adapter" = 2 ∧
     driverBuilderTrace.count "spool_holder" = 2) ∧
    ∀ s : Spec, assembly s =
      (((Shape.empty.union (bearing_holder s)).union
        (stepper_grip s)).union
        (.move 25 0 0 (bearing_adapter s))).union
        (.move 50 0 s.mount_stepper_top_to_bottom_bearing_bottom
          (spool_holder s)) :=
  ⟨⟨rfl, rfl, rfl, rfl⟩, fun _ => rfl⟩

/-- The export loop aborts exactly when some part in the list fails the type
assertion. -/
theorem driverLoop_aborts_iff (dir : String) (ps : List BuiltPart) :
    runAborts (driverLoop dir ps) = true ↔
      ∃ q ∈ ps, acceptedType q.ptype = false := by
  induction ps with
  | nil => simp [driverLoop, runAborts]
  | cons q qs ih =>
      rcases hq : acceptedType q.ptype with _ | _
      · have hstep : driverLoop dir (q :: qs) =
            .error (q.pname ++ " is not an expected type") := by
          simp [driverLoop, exportPart, hq]
        rw [hstep]
        simp only [runAborts, true_iff]
        exact ⟨q, List.mem_cons_self q qs, hq⟩
      · have hexp : exportPart dir q =
            .ok ((if q.manifold then [] else [Event.warnNonManifold q.pname]) ++
              [Event.writeFile (dir ++ "/" ++ q.pname ++ ".stl"),
               Event.writeFile (dir ++ "/" ++ q.pname ++ ".step")]) := by
          simp [exportPart, hq]
        rcases hrest : driverLoop dir qs with e | evs
        · have hstep : driverLoop dir (q :: qs) = .error e := by
            simp [driverLoop, hexp, hrest]
          rw [hstep]
          rw [hrest] at ih
          simp only [runAborts, true_iff] at ih ⊢
          obtain ⟨r, hr, hbad⟩ := ih
          exact ⟨r, List.mem_cons_of_mem q hr, hbad⟩
        · have hstep : driverLoop dir (q :: qs) =
              .ok (((if q.manifold then []
                  else [Event.warnNonManifold q.pname]) ++
                [Event.writeFile (dir ++ "/" ++ q.pname ++ ".stl"),
                 Event.writeFile (dir ++ "/" ++ q.pname ++ ".step")]) ++
                evs) := by
            simp [driverLoop, hexp, hrest]
          rw [hstep]
          rw [hrest] at ih
          simp only [runAborts, Bool.false_eq_true, false_iff] at ih ⊢
          rintro ⟨r, hr, hbad⟩
          rcases List.mem_cons.mp hr with rfl | hr'
          · rw [hq] at hbad
            exact absurd hbad (by simp)
          · exact ih ⟨r, hr', hbad⟩

/-- C7: the driver aborts if and only if some built part is not one of the
accepted solid representations (`Part`, `Solid`, `Compound`); a part that
merely fails the manifold predicate only contributes a warning event in front
of its two file writes — the export result is otherwise unchanged. -/
theorem driver_abort_iff_bad_type_and_manifold_only_warns
    (dir : String) (ps : List BuiltPart) (p : BuiltPart) :
    (runAborts (driverLoop dir ps) = true ↔
      ∃ q ∈ ps, acceptedType q.ptype = false) ∧
    exportPart dir { p with manifold := false } =
      (exportPart dir { p with manifold := true }).map
        (fun evs => Event.warnNonManifold p.pname :: evs) := by
  refine ⟨driverLoop_aborts_iff dir ps, ?_⟩
  rcases hq : acceptedType p.ptype with _ | _
  · simp [exportPart, hq, Except.map]
  · simp [exportPart, hq, Except.map]

/-- C8: one driver run over the five named parts creates the output directory
`build` idempotently (exist-ok) as its first action, before any write, and
writes exactly two files per part, `build/P.stl` and `build/P.step`, whatever
the manifold flags are. -/
theorem driver_writes_two_files_per_part (mf : String → Bool) :
    (runDriver (builtParts mf)).map
        (fun evs => (evs.head?, writesOf evs)) =
      .ok (some (Event.mkdirExistOk "build"),
        ["build/assembly.stl", "build/assembly.step",
         "build/bearing_holder.stl", "build/bearing_holder.step",
         "build/stepper_grip.stl", "build/stepper_grip.step",
         "build/bearing_adapter.stl", "build/bearing_adapter.step",
         "build/spool_holder.stl", "build/spool_holder.step"]) := by
  simp only [runDriver, builtParts, partLabels, List.map, driverLoop,
    exportPart, acceptedType, if_true, Except.map]
  split_ifs <;> rfl

/-- C9: `gap_between_bearings` is not a parameter of the generated `Spec`
constructor: passing it as a keyword raises (`TypeError`), its value is the
class constant `2.0` on every instance, and every annotated dimension can be
passed as a keyword. -/
theorem gap_between_bearings_not_ctor_param :
    (∀ x : ℚ, mkSpec [("gap_between_bearings", x)] = none) ∧
    (∀ s : Spec, s.gap_between_bearings = 2.0) ∧
    (∀ f ∈ specCtorFields, ∀ x : ℚ,
      (mkSpec [(f, x)]).bind (fun s => getField s f) = some x) := by
  refine ⟨fun x => rfl, fun s => rfl, ?_⟩
  intro f hf x
  fin_cases hf <;> rfl

/-- Witness for C10 at the default `Spec` and the concrete value 99. -/
theorem builders_independent_witness :
    stepper_grip { dSpec with needle_shaft_length := 99 } = stepper_grip dSpec ∧
    bearing_holder { dSpec with needle_shaft_length := 99 } =
      bearing_holder dSpec ∧
    bearing_adapter { dSpec with needle_shaft_length := 99 } =
      bearing_adapter dSpec ∧
    spool_holder { dSpec with needle_shaft_length := 99 } = spool_holder dSpec ∧
    assembly { dSpec with needle_shaft_length := 99 } = assembly dSpec :=
  builders_independent_of_needle_shaft_length dSpec 99

/-- Witness for C7 at concrete inputs: an empty part list in directory
`build`, and a well-typed non-manifold part named `assembly`. -/
theorem driver_abort_iff_bad_type_witness :
    (runAborts (driverLoop "build" []) = true ↔
      ∃ q ∈ ([] : List BuiltPart), acceptedType q.ptype = false) ∧
    exportPart "build"
        { (⟨"assembly", .part, true⟩ : BuiltPart) with manifold := false } =
      (exportPart "build"
          { (⟨"assembly", .part, true⟩ : BuiltPart) with manifold := true }).map
        (fun evs => Event.warnNonManifold
          (⟨"assembly", PType.part, true⟩ : BuiltPart).pname :: evs) :=
  driver_abort_iff_bad_type_and_manifold_only_warns "build" []
    ⟨"assembly", .part, true⟩

/-- Witness for C8 with every part manifold. -/
theorem driver_writes_two_files_per_part_witness :
    (runDriver (builtParts (fun _ => true))).map
        (fun evs => (evs.head?, writesOf evs)) =
      .ok (some (Event.mkdirExistOk "build"),
        ["build/assembly.stl", "build/assembly.step",
         "build/bearing_holder.stl", "build/bearing_holder.step",
         "build/stepper_grip.stl", "build/stepper_grip.step",
         "build/bearing_adapter.stl", "build/bearing_adapter.step",
         "build/spool_holder.stl", "build/spool_holder.step"]) :=
  driver_writes_two_files_per_part (fun _ => true)

/-- Witness for C9: the `gap_between_bearings` keyword is rejected at the
concrete value 5, while `bearing_od` (an annotated field) is accepted at 20. -/
theorem gap_between_bearings_not_ctor_param_witness :
    mkSpec [("gap_between_bearings", 5)] = none ∧
    (mkSpec [("bearing_od", 20)]).bind
      (fun s => getField s "bearing_od") = some 20 :=
  ⟨gap_between_bearings_not_ctor_param.1 5,
   gap_between_bearings_not_ctor_param.2.2 "bearing_od"
     (by simp [specCtorFields]) 20⟩

end NeedleHolder
